import Mathlib

/-!
Shallow embedding of the job-distribution and fault-tolerant pipeline layer of
the ds-midterm repository, together with theorems settling the spec claims.

Embedded components:
 - RetryConfig and FaultTolerantScraper (src/scraper/fault_tolerant_scraper.py):
   exponential_backoff, scrape_with_retry, send_to_dead_letter_queue (as the
   dead-letter write on the exhausted-retries path), process_task, WorkerStats.
 - JobOrchestrator (src/orchestrator.py): submit_scraping_job and
   monitor_job_progress.
 - KafkaURLManager (src/scraper/url_manager.py): submit_url,
   submit_urls_batch, get_pending_count.
 - ProcessorWorker (src/processor/kafka_processor_worker.py):
   process_scraped_data.
 - StatsNormalizer.validate_stats (src/processor/normalizer.py).

External collaborators (the Kafka broker, MongoDB, the Scrapy fetch, the JSON
decoder and the HTML parser, the embedding stage) are modelled as explicit
parameters or effect logs: a fetch is a function from attempt number to
success or failure, queue publishes and MongoDB writes are accumulated in
lists, and broker availability is an Except value.

The file is organized as definitions first, theorems second.
-/

namespace DSPipeline

/-! ### RetryConfig (fault_tolerant_scraper.py, lines 20-25) -/

namespace RetryConfig

def MAX_RETRIES : Nat := 3

def INITIAL_BACKOFF : Nat := 5

def MAX_BACKOFF : Nat := 300

def BACKOFF_MULTIPLIER : Nat := 2

end RetryConfig

/-! ### Exponential backoff (fault_tolerant_scraper.py, lines 54-71) -/

/-- Base delay computed by FaultTolerantScraper.exponential_backoff before
jitter: min(INITIAL_BACKOFF * BACKOFF_MULTIPLIER ^ attempt, MAX_BACKOFF).
All the constants are integers in the source, so the base delay is a natural
number. -/
def baseDelay (attempt : Nat) : Nat :=
  min (RetryConfig.INITIAL_BACKOFF * RetryConfig.BACKOFF_MULTIPLIER ^ attempt)
    RetryConfig.MAX_BACKOFF

/-- FaultTolerantScraper.exponential_backoff: returns the base delay plus a
jitter sampled uniformly from [0, 0.1 * delay]. The random sample is made
explicit as the argument jitter; admissible samples are the rationals with
0 ≤ jitter and 10 * jitter ≤ baseDelay attempt. -/
def exponential_backoff (attempt : Nat) (jitter : ℚ) : ℚ :=
  (baseDelay attempt : ℚ) + jitter

/-! ### StatsNormalizer.validate_stats (normalizer.py, lines 219-257) -/

/-- Normalized player record, the shape produced by
StatsNormalizer.normalize_player_stats that validate_stats inspects:
the canonical key player_name and the normalized numeric field map stats
(an association list standing for the Python dict). An absent or empty
player_name and an absent or empty stats dict are both falsy in the Python
code; they are modelled by the empty string and the empty list. -/
structure NormalizedStats where
  player_name : String
  stats : List (String × ℚ)
  deriving Repr, DecidableEq

/-- Percentage field names checked by validate_stats (normalizer.py,
lines 240-244). -/
def percentageFields : List String :=
  ["field_goal_percentage", "three_point_percentage",
   "free_throw_percentage", "effective_field_goal_percentage",
   "true_shooting_percentage"]

/-- StatsNormalizer.validate_stats: reject when player_name is falsy, when
stats is falsy, or when any of the five percentage fields present in stats
has a value below 0 or above 100; accept otherwise. -/
def validate_stats (s : NormalizedStats) : Bool :=
  if s.player_name = "" then false
  else if s.stats = [] then false
  else percentageFields.all fun k =>
    match s.stats.lookup k with
    | some v => !(decide (v < 0) || decide (100 < v))
    | none => true

/-! ### FaultTolerantScraper (fault_tolerant_scraper.py, lines 27-216) -/

/-- Process-local worker counters (fault_tolerant_scraper.py, lines 44-50). -/
structure WorkerStats where
  processed : Nat
  succeeded : Nat
  failed : Nat
  retried : Nat
  dead_lettered : Nat
  deriving Repr, DecidableEq

/-- Counters of a freshly initialized FaultTolerantScraper. -/
def initialStats : WorkerStats := ⟨0, 0, 0, 0, 0⟩

/-- Dead-letter document written by send_to_dead_letter_queue
(fault_tolerant_scraper.py, lines 169-180); the failed_at timestamp and the
metadata map are not modelled. -/
structure DeadLetterRecord where
  url : String
  error : String
  worker_id : String
  retry_count : Nat
  deriving Repr, DecidableEq

/-- Result dictionary of scrape_with_retry: its status field and the
attempts field. -/
structure ScrapeOutcome where
  status : String
  attempts : Nat
  deriving Repr, DecidableEq

/-- Side effects accumulated by one scrape_with_retry call: number of
run_spider fetch calls, store_raw_html writes (Dedup Store), dead-letter
documents inserted, and the worker counters. -/
structure ScrapeEffects where
  fetchCalls : Nat
  dedupWrites : List String
  deadLetters : List DeadLetterRecord
  stats : WorkerStats
  deriving Repr, DecidableEq

/-- Retry loop of FaultTolerantScraper.scrape_with_retry
(fault_tolerant_scraper.py, lines 87-157). The outcome of the fetch at a
given attempt is the oracle fetch (true = run_spider returned success), and
errMsg gives the exception text raised at a failing attempt. Fuel counts the
remaining loop iterations; the fuel-0 case is the fall-through return after
the for loop (lines 152-157, reachable only when MAX_RETRIES = 0). -/
def scrapeGo (worker_id url : String) (fetch : Nat → Bool) (errMsg : Nat → String) :
    Nat → Nat → ScrapeEffects → ScrapeOutcome × ScrapeEffects
  | 0, _, eff => (⟨"failed", RetryConfig.MAX_RETRIES⟩, eff)
  | fuel + 1, attempt, eff =>
    let eff1 : ScrapeEffects := { eff with fetchCalls := eff.fetchCalls + 1 }
    if fetch attempt then
      (⟨"success", attempt + 1⟩,
       { eff1 with
         dedupWrites := eff1.dedupWrites ++ [url],
         stats := { eff1.stats with succeeded := eff1.stats.succeeded + 1 } })
    else if attempt < RetryConfig.MAX_RETRIES - 1 then
      scrapeGo worker_id url fetch errMsg fuel (attempt + 1)
        { eff1 with stats := { eff1.stats with retried := eff1.stats.retried + 1 } }
    else
      (⟨"failed", RetryConfig.MAX_RETRIES⟩,
       { eff1 with
         deadLetters := eff1.deadLetters ++
           [⟨url, errMsg attempt, worker_id, RetryConfig.MAX_RETRIES⟩],
         stats := { eff1.stats with
           failed := eff1.stats.failed + 1,
           dead_lettered := eff1.stats.dead_lettered + 1 } })

/-- FaultTolerantScraper.scrape_with_retry, started at attempt 0 with empty
effect logs and the current worker counters st. -/
def scrape_with_retry (worker_id url : String) (fetch : Nat → Bool)
    (errMsg : Nat → String) (st : WorkerStats) : ScrapeOutcome × ScrapeEffects :=
  scrapeGo worker_id url fetch errMsg RetryConfig.MAX_RETRIES 0 ⟨0, [], [], st⟩

/-- A task together with the behaviour of the external fetch while the
worker processes it. -/
structure TaskSpec where
  url : String
  fetch : Nat → Bool
  errMsg : Nat → String

/-- FaultTolerantScraper.process_task (fault_tolerant_scraper.py,
lines 199-216): increments the processed counter, then scrapes with retry. -/
def process_task (worker_id : String) (t : TaskSpec) (st : WorkerStats) :
    ScrapeOutcome × ScrapeEffects :=
  scrape_with_retry worker_id t.url t.fetch t.errMsg
    { st with processed := st.processed + 1 }

/-- Worker counters after a sequence of completed process_task calls. -/
def runTasks (worker_id : String) (ts : List TaskSpec) (st : WorkerStats) :
    WorkerStats :=
  ts.foldl (fun s t => (process_task worker_id t s).2.stats) st

/-! ### Task submission (orchestrator.py, lines 33-77; url_manager.py, lines 43-105) -/

/-- Task message published to the scraping-tasks topic
(url_manager.py, lines 61-65); the metadata map is not modelled. -/
structure TaskMsg where
  url : String
  priority : Int
  deriving Repr, DecidableEq

/-- KafkaURLManager.submit_url with a healthy producer: publishes one task
message with default priority 0 and returns True. -/
def submit_url (url : String) : Bool × TaskMsg :=
  (true, ⟨url, 0⟩)

/-- KafkaURLManager.submit_urls_batch (url_manager.py, lines 81-105):
submits each URL in order, counting the successes; returns the success count
together with the messages published to the task topic (the final
producer.flush is a no-op in the model). -/
def submit_urls_batch : List String → Nat × List TaskMsg
  | [] => (0, [])
  | u :: rest =>
    let r := submit_url u
    let s := submit_urls_batch rest
    ((if r.1 then 1 else 0) + s.1, if r.1 then r.2 :: s.2 else s.2)

/-- Dedup filtering loop of JobOrchestrator.submit_scraping_job
(orchestrator.py, lines 47-55): returns the new URLs in input order together
with the skipped count, with the Dedup Store existence check url_exists. -/
def filterNew (url_exists : String → Bool) : List String → List String × Nat
  | [] => ([], 0)
  | u :: rest =>
    let r := filterNew url_exists rest
    if url_exists u then (r.1, r.2 + 1) else (u :: r.1, r.2)

/-- Result dictionary of submit_scraping_job. In the no_new_urls branch the
source dictionary has no new_urls key; that is modelled by the empty list. -/
structure SubmitResult where
  status : String
  total_urls : Nat
  skipped : Nat
  submitted : Nat
  new_urls : List String
  deriving Repr, DecidableEq

/-- JobOrchestrator.submit_scraping_job (orchestrator.py, lines 33-77):
filters the input against the Dedup Store, returns no_new_urls when nothing
is left, and otherwise publishes the remainder as tasks in one batch.
Returns the result dictionary together with the published task messages. -/
def submit_scraping_job (url_exists : String → Bool) (urls : List String) :
    SubmitResult × List TaskMsg :=
  let fn := filterNew url_exists urls
  if fn.1 = [] then
    (⟨"no_new_urls", urls.length, fn.2, 0, []⟩, [])
  else
    let sb := submit_urls_batch fn.1
    (⟨"success", urls.length, fn.2, sb.1, fn.1⟩, sb.2)

/-! ### Progress monitor (orchestrator.py, lines 79-121) -/

/-- Polling loop of JobOrchestrator.monitor_job_progress over the finite
trace of observations the deadline permits. Each observation is the pair
(pending, processed_stats_count) read at one iteration; lastCount is the
loop variable last_count. Returns the pair held by the Python variables
(pending, count) when the loop ends, either via the break (pending = 0 and
the count grew past last_count) or via the deadline after the last
observation (on the last observation the two exits return the same pair, so
they share one branch); none when the trace is empty, in which case the loop
body never ran and the local variable pending was never assigned. -/
def monitorLoop (lastCount : Nat) : List (Nat × Nat) → Option (Nat × Nat)
  | [] => none
  | [(p, c)] => some (p, c)
  | (p, c) :: rest₁ :: rest₂ =>
    if p = 0 ∧ lastCount < c then some (p, c)
    else monitorLoop c (rest₁ :: rest₂)

/-- Status field of the dictionary returned by monitor_job_progress
(orchestrator.py, line 118) on a given observation trace: completed when the
pending variable left by the loop is 0 and timeout otherwise; none models
the UnboundLocalError raised when the loop never ran and the final status
expression reads the unassigned variable pending. -/
def monitor_job_progress_obs (obs : List (Nat × Nat)) : Option String :=
  (monitorLoop 0 obs).map fun pc => if pc.1 = 0 then "completed" else "timeout"

/-- Number of loop iterations the while guard permits: iterations poll at
elapsed times 0, pollInterval, 2 * pollInterval, ... while elapsed < timeout
(the broker and store queries are idealized as instantaneous and each
sleep(poll_interval) advances the clock by pollInterval). Zero when
timeout ≤ 0, since the guard time.time() - start_time < timeout already
fails at the first check. -/
def numPolls (timeout pollInterval : Int) : Nat :=
  if timeout ≤ 0 then 0
  else (timeout.toNat + pollInterval.toNat - 1) / pollInterval.toNat

/-- JobOrchestrator.monitor_job_progress with the queue backlog and the
persisted-record count at poll i given by the observation oracle obsAt. -/
def monitor_job_progress (timeout pollInterval : Int) (obsAt : Nat → Nat × Nat) :
    Option String :=
  monitor_job_progress_obs ((List.range (numPolls timeout pollInterval)).map obsAt)

/-- Completion condition asserted by the spec for monitor_job_progress: at
some observation the backlog is zero and the persisted count exceeds the
count of the previous observation (0 before the first observation). -/
def completionObservedFrom (lastCount : Nat) : List (Nat × Nat) → Bool
  | [] => false
  | (p, c) :: rest =>
    (decide (p = 0) && decide (lastCount < c)) || completionObservedFrom c rest

/-- Completion condition of the spec over a whole observation trace. -/
def completionObserved (obs : List (Nat × Nat)) : Bool :=
  completionObservedFrom 0 obs

/-- First observation meeting the break condition of the monitor loop,
scanning the trace while threading last_count. -/
def firstBreakObs (lastCount : Nat) : List (Nat × Nat) → Option (Nat × Nat)
  | [] => none
  | (p, c) :: rest =>
    if p = 0 ∧ lastCount < c then some (p, c) else firstBreakObs c rest

/-! ### ProcessorWorker.process_scraped_data (kafka_processor_worker.py, lines 58-195) -/

/-- Result message consumed from the results topic: the url and status
fields read by process_scraped_data. -/
structure FetchResultMsg where
  url : String
  status : String
  deriving Repr, DecidableEq

/-- One raw row of scraped data: the PLAYER field and the remaining raw stat
fields as strings. -/
structure PlayerRow where
  PLAYER : String
  fields : List (String × String)
  deriving Repr, DecidableEq

/-- External collaborators used by process_scraped_data on its success path:
the MongoDB raw_data lookup (url to stored html_content), the decoding of
the stored payload into rows (json.loads, with the HTML-parser fallback),
and StatsNormalizer.normalize_player_stats, whose string and float parsing
is abstracted as a function from the player name and the raw row to a
normalized record. -/
structure ProcEnv where
  find_raw : String → Option String
  decode : String → List PlayerRow
  normalize : String → PlayerRow → NormalizedStats

/-- Outcome dictionary of process_scraped_data: the status, the skip reason
or error, and the players_processed count. -/
structure ProcOutcome where
  status : String
  reason : Option String
  players_processed : Nat
  deriving Repr, DecidableEq

/-- Side effects of one process_scraped_data call: the records persisted via
store_processed_stats, and the numbers of normalize_player_stats and
validate_stats calls made. -/
structure ProcEffects where
  stored : List (String × List (String × ℚ))
  normalizeCalls : Nat
  validateCalls : Nat
  deriving Repr, DecidableEq

/-- Per-player loop of process_scraped_data (lines 120-154): skip rows with
an empty PLAYER, normalize, validate, and persist the valid records. -/
def processPlayers (env : ProcEnv) (data : List PlayerRow) : Nat × ProcEffects :=
  data.foldl
    (fun acc row =>
      if row.PLAYER = "" then acc
      else
        let normalized := env.normalize row.PLAYER row
        let eff := { acc.2 with
          normalizeCalls := acc.2.normalizeCalls + 1,
          validateCalls := acc.2.validateCalls + 1 }
        if validate_stats normalized then
          (acc.1 + 1,
           { eff with
             stored := eff.stored ++ [(normalized.player_name, normalized.stats)] })
        else (acc.1, eff))
    (0, ⟨[], 0, 0⟩)

/-- ProcessorWorker.process_scraped_data (lines 58-195): emits skipped for a
non-success result before touching anything else, then looks up the raw
payload, decodes it and runs the per-player normalize/validate/store loop.
The embedding fan-out after the loop only touches the external vector store
and is not modelled. -/
def process_scraped_data (env : ProcEnv) (msg : FetchResultMsg) :
    ProcOutcome × ProcEffects :=
  if msg.status ≠ "success" then
    (⟨"skipped", some "scraping_failed", 0⟩, ⟨[], 0, 0⟩)
  else
    match env.find_raw msg.url with
    | none => (⟨"failed", some "Raw data not found", 0⟩, ⟨[], 0, 0⟩)
    | some html =>
      let data := env.decode html
      if data = [] then (⟨"no_data", none, 0⟩, ⟨[], 0, 0⟩)
      else
        let r := processPlayers env data
        (⟨"success", none, r.1⟩, r.2)

/-- Environment with no stored payloads, used to instantiate witnesses. -/
def emptyProcEnv : ProcEnv :=
  ⟨fun _ => none, fun _ => [], fun n _ => ⟨n, []⟩⟩

/-! ### KafkaURLManager.get_pending_count (url_manager.py, lines 205-251) -/

/-- Broker state visible to the count-checker consumer: the partition ids of
the scraping topic (none models partitions_for_topic returning None), the
committed offset per partition (none when nothing was committed), and the
end offset (high-water mark) per partition. -/
structure BrokerView where
  topicParts : Option (List Nat)
  committed : Nat → Option Int
  endOffset : Nat → Int

/-- Offset arithmetic of get_pending_count on a reachable broker
(url_manager.py, lines 222-247): 0 when the topic has no partition info,
otherwise the sum over all partitions of end offset minus committed offset,
a missing committed offset counting as 0. -/
def pendingOf (b : BrokerView) : Int :=
  match b.topicParts with
  | none => 0
  | some ps =>
    if ps = [] then 0
    else ps.foldl (fun acc p => acc + (b.endOffset p - (b.committed p).getD 0)) 0

/-- KafkaURLManager.get_pending_count: the whole broker interaction is one
try block whose except clause logs the error and returns 0, so a failed
interaction (modelled as an error value) is reported as a zero backlog. -/
def get_pending_count (conn : Except String BrokerView) : Int :=
  match conn with
  | .error _ => 0
  | .ok b => pendingOf b

/-- Broker view of a reachable but fully drained topic: one partition whose
committed offset equals its end offset. -/
def drainedTopicBroker : BrokerView :=
  ⟨some [0], fun _ => some 7, fun _ => 7⟩

/-! ### Sanity checks on concrete inputs -/

example : validate_stats ⟨"Lebron James", [("points", 40474), ("field_goal_percentage", 50)]⟩ = true := by decide

example : validate_stats ⟨"Lebron James", [("field_goal_percentage", 150)]⟩ = false := by decide

example : validate_stats ⟨"", [("points", 1)]⟩ = false := by decide

example : validate_stats ⟨"A", []⟩ = false := by decide

example : baseDelay 0 = 5 ∧ baseDelay 1 = 10 ∧ baseDelay 2 = 20 := by decide

/-! ### Helper lemmas -/

theorem filterNew_eq (p : String → Bool) (l : List String) :
    filterNew p l = (l.filter (fun u => !p u), (l.filter p).length) := by
  induction l with
  | nil => rfl
  | cons u rest ih =>
    cases hu : p u <;> simp [filterNew, ih, List.filter_cons, hu]

theorem submit_urls_batch_eq (l : List String) :
    submit_urls_batch l = (l.length, l.map fun u => ⟨u, 0⟩) := by
  induction l with
  | nil => rfl
  | cons u rest ih => simp [submit_urls_batch, submit_url, ih, Nat.add_comm]

theorem process_task_stats (worker_id : String) (t : TaskSpec) (st : WorkerStats) :
    ((process_task worker_id t st).2.stats).processed = st.processed + 1 ∧
    ((process_task worker_id t st).2.stats).succeeded +
        ((process_task worker_id t st).2.stats).failed =
      st.succeeded + st.failed + 1 ∧
    ((process_task worker_id t st).2.stats).failed + st.dead_lettered =
      st.failed + ((process_task worker_id t st).2.stats).dead_lettered := by
  cases h0 : t.fetch 0 <;> cases h1 : t.fetch 1 <;> cases h2 : t.fetch 2 <;>
    simp [process_task, scrape_with_retry, scrapeGo, h0, h1, h2,
      RetryConfig.MAX_RETRIES] <;>
    omega

theorem monitorLoop_eq (obs : List (Nat × Nat)) : ∀ lc : Nat,
    monitorLoop lc obs = (firstBreakObs lc obs).orElse fun _ => obs.getLast? := by
  induction obs with
  | nil => intro lc; rfl
  | cons pc rest ih =>
    intro lc
    obtain ⟨p, c⟩ := pc
    cases rest with
    | nil => by_cases hb : p = 0 ∧ lc < c <;> simp [monitorLoop, firstBreakObs, hb]
    | cons q rs =>
      by_cases hb : p = 0 ∧ lc < c
      · simp [monitorLoop, firstBreakObs, hb]
      · simp only [monitorLoop, firstBreakObs, if_neg hb, ih c,
          List.getLast?_cons_cons]

theorem monitorLoop_isSome (obs : List (Nat × Nat)) : ∀ lc : Nat, obs ≠ [] →
    (monitorLoop lc obs).isSome = true := by
  induction obs with
  | nil => intro lc h; exact absurd rfl h
  | cons pc rest ih =>
    intro lc _
    obtain ⟨p, c⟩ := pc
    cases rest with
    | nil => simp [monitorLoop]
    | cons q rs =>
      by_cases hb : p = 0 ∧ lc < c
      · simp [monitorLoop, hb]
      · simpa only [monitorLoop, if_neg hb] using ih c (by simp)

/-! ### Claim theorems -/

/-- C3: for attempts a ≤ b the base backoff delay
min(INITIAL_BACKOFF * MULTIPLIER^attempt, MAX_BACKOFF) is non-decreasing and
never exceeds MAX_BACKOFF, and for any admissible jitter sample
(0 ≤ jitter and jitter ≤ 0.1 * base, written 10 * jitter ≤ base), the
returned delay exponential_backoff lies between the base and 1.1 times the
base (written 10 * returned ≤ 11 * base), i.e. it is the base plus a jitter
in [0, 0.1 * base]; with the default constants MAX_RETRIES=3,
INITIAL_BACKOFF=5, MULTIPLIER=2, MAX_BACKOFF=300. -/
theorem backoff_monotone_capped_jittered (a b : Nat) (j : ℚ)
    (hab : a ≤ b) (hj0 : 0 ≤ j) (hj : 10 * j ≤ (baseDelay a : ℚ)) :
    baseDelay a ≤ baseDelay b ∧
    baseDelay b ≤ RetryConfig.MAX_BACKOFF ∧
    (baseDelay a : ℚ) ≤ exponential_backoff a j ∧
    10 * exponential_backoff a j ≤ 11 * (baseDelay a : ℚ) := by
  refine ⟨?_, ?_, ?_, ?_⟩
  · exact min_le_min
      (Nat.mul_le_mul_left _ (Nat.pow_le_pow_right (by decide) hab)) le_rfl
  · exact min_le_right _ _
  · exact le_add_of_nonneg_right hj0
  · unfold exponential_backoff
    linarith

/-- Witness for C3 at a = 1, b = 2, jitter = 0. -/
theorem backoff_monotone_capped_jittered_witness :
    (1 ≤ 2 ∧ (0:ℚ) ≤ 0 ∧ 10 * (0:ℚ) ≤ (baseDelay 1 : ℚ)) ∧
    (baseDelay 1 ≤ baseDelay 2 ∧ baseDelay 2 ≤ RetryConfig.MAX_BACKOFF ∧
     (baseDelay 1 : ℚ) ≤ exponential_backoff 1 0 ∧
     10 * exponential_backoff 1 0 ≤ 11 * (baseDelay 1 : ℚ)) :=
  ⟨⟨by decide, le_rfl, by simp⟩,
   backoff_monotone_capped_jittered 1 2 0 (by decide) le_rfl (by simp)⟩

/-- C2: when every attempt fails, scrape_with_retry performs exactly
MAX_RETRIES = 3 fetch attempts and writes exactly one DeadLetterRecord, with
retry_count = 3 and the error of the final attempt; when some attempt
succeeds, no DeadLetterRecord is written. -/
theorem scrape_with_retry_dead_letter (worker_id url : String)
    (fetch : Nat → Bool) (errMsg : Nat → String) (st : WorkerStats) :
    ((∀ a, a < RetryConfig.MAX_RETRIES → fetch a = false) →
      (scrape_with_retry worker_id url fetch errMsg st).2.fetchCalls =
          RetryConfig.MAX_RETRIES ∧
      (scrape_with_retry worker_id url fetch errMsg st).2.deadLetters =
          [⟨url, errMsg 2, worker_id, 3⟩] ∧
      (scrape_with_retry worker_id url fetch errMsg st).1.status = "failed") ∧
    ((∃ a, a < RetryConfig.MAX_RETRIES ∧ fetch a = true) →
      (scrape_with_retry worker_id url fetch errMsg st).2.deadLetters = []) := by
  constructor
  · intro h
    have h0 := h 0 (by decide)
    have h1 := h 1 (by decide)
    have h2 := h 2 (by decide)
    simp [scrape_with_retry, scrapeGo, h0, h1, h2, RetryConfig.MAX_RETRIES]
  · rintro ⟨a, ha, hfa⟩
    cases h0 : fetch 0 with
    | true => simp [scrape_with_retry, scrapeGo, h0, RetryConfig.MAX_RETRIES]
    | false =>
      cases h1 : fetch 1 with
      | true => simp [scrape_with_retry, scrapeGo, h0, h1, RetryConfig.MAX_RETRIES]
      | false =>
        cases h2 : fetch 2 with
        | true => simp [scrape_with_retry, scrapeGo, h0, h1, h2, RetryConfig.MAX_RETRIES]
        | false =>
          have ha3 : a < 3 := ha
          interval_cases a <;> simp_all

/-- Witness for C2 at an always-failing and an immediately succeeding fetch. -/
theorem scrape_with_retry_dead_letter_witness :
    ((scrape_with_retry "w" "u" (fun _ => false) (fun _ => "boom")
        initialStats).2.fetchCalls = RetryConfig.MAX_RETRIES ∧
     (scrape_with_retry "w" "u" (fun _ => false) (fun _ => "boom")
        initialStats).2.deadLetters = [⟨"u", "boom", "w", 3⟩] ∧
     (scrape_with_retry "w" "u" (fun _ => false) (fun _ => "boom")
        initialStats).1.status = "failed") ∧
    (scrape_with_retry "w" "u" (fun _ => true) (fun _ => "boom")
        initialStats).2.deadLetters = [] :=
  ⟨(scrape_with_retry_dead_letter "w" "u" (fun _ => false) (fun _ => "boom")
      initialStats).1 (by decide),
   (scrape_with_retry_dead_letter "w" "u" (fun _ => true) (fun _ => "boom")
      initialStats).2 ⟨0, by decide, rfl⟩⟩

/-- C9: after every sequence of completed process_task calls starting from a
fresh worker, the counters satisfy processed = succeeded + failed and
failed = dead_lettered. -/
theorem worker_stats_invariant (worker_id : String) (ts : List TaskSpec) :
    (runTasks worker_id ts initialStats).processed =
        (runTasks worker_id ts initialStats).succeeded +
          (runTasks worker_id ts initialStats).failed ∧
    (runTasks worker_id ts initialStats).failed =
        (runTasks worker_id ts initialStats).dead_lettered := by
  have key : ∀ (l : List TaskSpec) (st : WorkerStats),
      st.processed = st.succeeded + st.failed → st.failed = st.dead_lettered →
      (runTasks worker_id l st).processed =
          (runTasks worker_id l st).succeeded + (runTasks worker_id l st).failed ∧
      (runTasks worker_id l st).failed =
          (runTasks worker_id l st).dead_lettered := by
    intro l
    induction l with
    | nil => intro st h1 h2; exact ⟨h1, h2⟩
    | cons t rest ih =>
      intro st h1 h2
      obtain ⟨e1, e2, e3⟩ := process_task_stats worker_id t st
      simp only [runTasks, List.foldl_cons] at *
      exact ih _ (by omega) (by omega)
  exact key ts initialStats rfl rfl

/-- C4: every URL already in the Dedup Store is counted in skipped and not
published, and exactly the remaining URLs are published as tasks (submitted
counts them); in particular the two-URL scenario with one known URL yields
submitted = 1, skipped = 1, and only the other URL published. -/
theorem submit_job_dedup_filter (url_exists : String → Bool) (urls : List String) :
    (submit_scraping_job url_exists urls).1.skipped =
        (urls.filter (fun u => url_exists u)).length ∧
    ((submit_scraping_job url_exists urls).2.map TaskMsg.url) =
        urls.filter (fun u => !url_exists u) ∧
    (submit_scraping_job url_exists urls).1.submitted =
        (urls.filter (fun u => !url_exists u)).length ∧
    (submit_scraping_job (fun u => u == "a.com/1")
        ["a.com/1", "a.com/2"]).1.submitted = 1 ∧
    (submit_scraping_job (fun u => u == "a.com/1")
        ["a.com/1", "a.com/2"]).1.skipped = 1 ∧
    ((submit_scraping_job (fun u => u == "a.com/1")
        ["a.com/1", "a.com/2"]).2.map TaskMsg.url) = ["a.com/2"] := by
  have hcomp : (TaskMsg.url ∘ fun u => (⟨u, 0⟩ : TaskMsg)) = id := rfl
  refine ⟨?_, ?_, ?_, by rfl, by rfl, by rfl⟩ <;>
  · by_cases h : urls.filter (fun u => !url_exists u) = [] <;>
      simp [submit_scraping_job, filterNew_eq, submit_urls_batch_eq, h, hcomp]

/-- C5: when every URL of the list already exists in the Dedup Store,
submit_scraping_job returns the dedicated non-error status no_new_urls with
submitted = 0 and skipped equal to the list length, and publishes nothing;
hence resubmitting a fully completed list yields submitted = 0. -/
theorem submit_job_all_known (url_exists : String → Bool) (urls : List String)
    (h : ∀ u ∈ urls, url_exists u = true) :
    (submit_scraping_job url_exists urls).1.status = "no_new_urls" ∧
    (submit_scraping_job url_exists urls).1.submitted = 0 ∧
    (submit_scraping_job url_exists urls).1.skipped = urls.length ∧
    (submit_scraping_job url_exists urls).2 = [] := by
  have hempty : urls.filter (fun u => !url_exists u) = [] := by
    rw [List.filter_eq_nil_iff]
    intro u hu
    simp [h u hu]
  have hall : urls.filter (fun u => url_exists u) = urls := by
    rw [List.filter_eq_self]
    intro u hu
    exact h u hu
  simp [submit_scraping_job, filterNew_eq, hempty, hall]

/-- Witness for C5 at a one-element list whose URL is already known. -/
theorem submit_job_all_known_witness :
    (∀ u ∈ ["a.com/1"], (fun _ => true) u = true) ∧
    ((submit_scraping_job (fun _ => true) ["a.com/1"]).1.status = "no_new_urls" ∧
     (submit_scraping_job (fun _ => true) ["a.com/1"]).1.submitted = 0 ∧
     (submit_scraping_job (fun _ => true) ["a.com/1"]).1.skipped =
        (["a.com/1"] : List String).length ∧
     (submit_scraping_job (fun _ => true) ["a.com/1"]).2 = []) :=
  ⟨fun _ _ => rfl, submit_job_all_known _ _ (fun _ _ => rfl)⟩

/-- C7: validate_stats returns False exactly when the canonical key
player_name is empty, the normalized field set stats is empty, or some
percentage field present in the record has a value outside [0,100];
otherwise it returns True. -/
theorem validate_stats_false_iff (s : NormalizedStats) :
    validate_stats s = false ↔
      s.player_name = "" ∨ s.stats = [] ∨
      ∃ k v, k ∈ percentageFields ∧ s.stats.lookup k = some v ∧
        (v < 0 ∨ 100 < v) := by
  unfold validate_stats
  split_ifs with h1 h2
  · simp [h1]
  · simp [h2]
  · simp only [h1, h2, false_or]
    rw [← Bool.not_eq_true, List.all_eq_true]
    constructor
    · intro hall
      push_neg at hall
      obtain ⟨k, hk, hpk⟩ := hall
      cases hlk : s.stats.lookup k with
      | none => simp only [hlk] at hpk; simp at hpk
      | some v =>
        simp only [hlk] at hpk
        refine ⟨k, v, hk, hlk, ?_⟩
        have hp : 0 ≤ v → 100 < v := by simpa using hpk
        exact or_iff_not_imp_left.2 fun h => hp (not_lt.1 h)
    · rintro ⟨k, v, hk, hkv, hv⟩
      intro hall
      have hk2 := hall k hk
      simp only [hkv] at hk2
      simp only [Bool.not_eq_true', Bool.or_eq_false_iff,
        decide_eq_false_iff_not, not_lt] at hk2
      rcases hv with h | h
      · exact absurd h (not_lt.2 hk2.1)
      · exact absurd h (not_lt.2 hk2.2)

/-- Counterexample to C1: a run whose deadline permits one poll that
observes backlog 0 with an unchanged persisted count returns the status
completed, although no observation had both backlog zero and an increased
count (the claim demands timeout here). -/
theorem monitor_claim_counterexample :
    monitor_job_progress 5 5 (fun _ => (0, 0)) = some "completed" ∧
    completionObserved ((List.range (numPolls 5 5)).map fun _ => (0, 0)) = false := by
  constructor
  · rfl
  · rfl

/-- C1 as amended: the status returned by monitor_job_progress is computed
from the final observation alone — the first observation at which the
backlog is zero and the persisted count increased if one exists (the break),
and otherwise simply the last observation made before the deadline — and it
is completed exactly when the backlog of that final observation is zero, even
when the persisted count never increased; with no observation at all no
status is returned. -/
theorem monitor_status_amended (timeout pollInterval : Int)
    (obsAt : Nat → Nat × Nat) :
    monitor_job_progress timeout pollInterval obsAt =
      ((firstBreakObs 0 ((List.range (numPolls timeout pollInterval)).map obsAt)).orElse
          fun _ => ((List.range (numPolls timeout pollInterval)).map obsAt).getLast?).map
        fun pc => if pc.1 = 0 then "completed" else "timeout" := by
  unfold monitor_job_progress monitor_job_progress_obs
  rw [monitorLoop_eq]

/-- C10: when timeout ≤ 0 the polling loop of monitor_job_progress never
runs and the final status expression reads the never-assigned variable
pending, so no result is returned (modelled by none); a result exists
whenever at least one poll iteration runs. -/
theorem monitor_no_result_on_nonpositive_timeout (timeout pollInterval : Int)
    (obsAt : Nat → Nat × Nat) (h : timeout ≤ 0) :
    monitor_job_progress timeout pollInterval obsAt = none ∧
    ∀ obs : List (Nat × Nat), obs ≠ [] →
      (monitor_job_progress_obs obs).isSome = true := by
  constructor
  · simp [monitor_job_progress, numPolls, h, monitor_job_progress_obs, monitorLoop]
  · intro obs hobs
    simpa [monitor_job_progress_obs] using monitorLoop_isSome obs 0 hobs

/-- Witness for C10 at timeout 0 and a one-observation trace. -/
theorem monitor_no_result_witness :
    ((0 : Int) ≤ 0) ∧
    (monitor_job_progress 0 5 (fun _ => (3, 1)) = none ∧
     ∀ obs : List (Nat × Nat), obs ≠ [] →
       (monitor_job_progress_obs obs).isSome = true) :=
  ⟨le_rfl, monitor_no_result_on_nonpositive_timeout 0 5 (fun _ => (3, 1)) le_rfl⟩

/-- C6: a FetchResult whose status is not success yields the skipped outcome
with reason scraping_failed, and no ProcessedRecord is written: no
normalization, validation or upsert happens for it. -/
theorem processor_skips_failed (env : ProcEnv) (msg : FetchResultMsg)
    (h : msg.status ≠ "success") :
    (process_scraped_data env msg).1.status = "skipped" ∧
    (process_scraped_data env msg).1.reason = some "scraping_failed" ∧
    (process_scraped_data env msg).2.stored = [] ∧
    (process_scraped_data env msg).2.normalizeCalls = 0 ∧
    (process_scraped_data env msg).2.validateCalls = 0 := by
  simp [process_scraped_data, h]

/-- Witness for C6 at a failed result message. -/
theorem processor_skips_failed_witness :
    (("failed" : String) ≠ "success") ∧
    ((process_scraped_data emptyProcEnv ⟨"a.com/1", "failed"⟩).1.status = "skipped" ∧
     (process_scraped_data emptyProcEnv ⟨"a.com/1", "failed"⟩).1.reason =
        some "scraping_failed" ∧
     (process_scraped_data emptyProcEnv ⟨"a.com/1", "failed"⟩).2.stored = [] ∧
     (process_scraped_data emptyProcEnv ⟨"a.com/1", "failed"⟩).2.normalizeCalls = 0 ∧
     (process_scraped_data emptyProcEnv ⟨"a.com/1", "failed"⟩).2.validateCalls = 0) :=
  ⟨by decide, processor_skips_failed emptyProcEnv ⟨"a.com/1", "failed"⟩ (by decide)⟩

/-- C8: get_pending_count returns 0 when any exception occurs while querying
the broker, the same value it returns for a reachable topic with an empty
backlog, so an unreachable queue is indistinguishable from an empty backlog
for every caller of get_pending_count, the progress monitor included. -/
theorem pending_count_zero_on_error :
    (∀ e : String, get_pending_count (Except.error e) = 0) ∧
    get_pending_count (Except.ok drainedTopicBroker) = 0 ∧
    ∀ e : String,
      get_pending_count (Except.error e) =
        get_pending_count (Except.ok drainedTopicBroker) := by
  refine ⟨fun e => rfl, by decide, fun e => rfl⟩

end DSPipeline
